import Mathlib

/-!
Verification development for the storm-data-collector service.

The definitions below are a shallow embedding of the TypeScript sources:
  src/kafka/publisher.ts      (publishBatch)
  src/kafka/dlqPublisher.ts   (publishToDLQ, writeDLQToFile, createDLQMessage)
  src/kafka/client.ts         (connectProducer / disconnectProducer, ref-counted)
  src/csv/csv-stream.ts       (csvStreamToKafka, parseCsv; buffered variant)
  src/csv/csvStream.ts        (csvStreamToKafka; streaming/batched variant)
  src/csv/utils.ts            (expandHHMMToISO)
  src/scheduler/scheduler.ts  (processCsvWithFallback, calculateFallbackDelay, runJob)

Effectful calls (producer.send, fs.writeFile, fetch, setTimeout) are modelled
by explicit oracles describing whether each external operation succeeds, and
the functions return traces recording the externally visible actions
(send calls, files written, log events, delays) next to their return values.
-/

namespace Storm

/-- A parsed CSV row: an ordered field-name-to-string-value mapping, as the
TypeScript type Record of string to string (association list, in field order). -/
abbrev CsvRow := List (String × String)

/-- Look up a field value in a row, as JS property access row[key]:
the value at the first matching field name, if any. -/
def CsvRow.lookup : CsvRow → String → Option String
  | [], _ => none
  | p :: t, key => if p.1 = key then some p.2 else CsvRow.lookup t key

/-- JS object spread update: writing key `k` with value `v` on a row
(as in the spread expression used by parseCsv) overwrites the field in place
when the key already exists and appends it otherwise. -/
def CsvRow.setField (row : CsvRow) (k v : String) : CsvRow :=
  if row.any (fun p => p.1 = k) then
    row.map (fun p => if p.1 = k then (p.1, v) else p)
  else
    row ++ [(k, v)]

/-- Metadata attached to a dead-letter envelope
(src/kafka/dlqPublisher.ts, createDLQMessage). -/
structure DLQMetadata where
  timestamp : String
  originalTopic : String
  errorType : String
  errorMessage : String
  errorStack : Option String
  attemptNumber : Nat
  batchId : Option String
  csvUrl : Option String
  weatherType : Option String
  deriving DecidableEq, Repr

/-- A dead-letter envelope: the unmodified original record plus metadata
(the DLQMessage type of src/types/index.d.ts). -/
structure DLQMessage where
  originalMessage : CsvRow
  metadata : DLQMetadata
  deriving DecidableEq, Repr

/-- The fileMetadata block of a fallback file (src/types/index.d.ts). -/
structure FileMetadata where
  timestamp : String
  count : Nat
  reason : String
  deriving DecidableEq, Repr

/-- The JSON document written by writeDLQToFile: all failed envelopes plus
file-level metadata. -/
structure FileFallbackMessage where
  failedMessages : List DLQMessage
  fileMetadata : FileMetadata
  deriving DecidableEq, Repr

/-- The dead-letter related part of config (src/config.ts, config.dlq). -/
structure DlqConfig where
  enabled : Bool
  topic : String
  includeStackTraces : Bool
  fallbackDirectory : String
  deriving DecidableEq, Repr

/-- Outcomes of the external operations one publishBatch invocation may
perform: the primary producer.send, the DLQ producer.send, and the fallback
fs.writeFile.  Error message strings stand for the thrown Error objects. -/
structure PubEnv where
  primarySendOk : Bool
  primaryErrMsg : String
  dlqSendOk : Bool
  dlqErrMsg : String
  fileWriteOk : Bool
  now : String
  deriving DecidableEq, Repr

/-- The context argument of createDLQMessage. -/
structure DLQContext where
  originalTopic : String
  csvUrl : Option String
  weatherType : Option String
  batchId : Option String
  attemptNumber : Option Nat
  deriving DecidableEq, Repr

/-- createDLQMessage (src/kafka/dlqPublisher.ts lines 152-177): wraps one
failed record with error context.  The JS expression
(context.attemptNumber or 1, via the or-else operator) maps 0 and undefined
to 1. -/
def createDLQMessage (includeStackTraces : Bool) (now : String)
    (originalMessage : CsvRow) (errorMessage : String)
    (errorStack : Option String) (context : DLQContext) : DLQMessage :=
  { originalMessage := originalMessage
    metadata :=
      { timestamp := now
        originalTopic := context.originalTopic
        errorType := "kafka_publish"
        errorMessage := errorMessage
        errorStack := if includeStackTraces then errorStack else none
        attemptNumber :=
          match context.attemptNumber with
          | some n => if n = 0 then 1 else n
          | none => 1
        batchId := context.batchId
        csvUrl := context.csvUrl
        weatherType := context.weatherType } }

/-- Timestamp sanitization of writeDLQToFile: every character matched by
the TIMESTAMP_UNSAFE_CHARS pattern (colon or dot) is replaced by a dash
(src/shared/constants.ts FILE_FORMAT). -/
def sanitizeTimestamp (s : String) : String :=
  String.mk (s.data.map (fun c => if c = ':' ∨ c = '.' then '-' else c))

/-- Filename produced by writeDLQToFile (src/kafka/dlqPublisher.ts line 84). -/
def dlqFallbackFilename (isoTimestamp : String) : String :=
  "dlq-fallback-" ++ sanitizeTimestamp isoTimestamp ++ ".json"

/-- Externally visible actions of one writeDLQToFile call:
the file written (directory, filename, JSON content), the critical
lost-messages log (lost count and sample first envelope) when the write
fails, and whether an exception escaped (never; the function catches). -/
structure FileWriteTrace where
  fileWritten : Option (String × String × FileFallbackMessage)
  criticalLoss : Option (Nat × Option DLQMessage)
  raised : Bool
  deriving DecidableEq, Repr

/-- writeDLQToFile (src/kafka/dlqPublisher.ts lines 74-134): writes all
envelopes to one timestamped JSON file in the configured directory; if the
filesystem write fails it logs the critical loss and returns normally. -/
def writeDLQToFile (cfg : DlqConfig) (messages : List DLQMessage)
    (reason : String) (now : String) (fsWriteOk : Bool) : FileWriteTrace :=
  let filename := dlqFallbackFilename now
  let content : FileFallbackMessage :=
    { failedMessages := messages
      fileMetadata := { timestamp := now, count := messages.length, reason := reason } }
  if fsWriteOk then
    { fileWritten := some (cfg.fallbackDirectory, filename, content)
      criticalLoss := none
      raised := false }
  else
    { fileWritten := none
      criticalLoss := some (messages.length, messages.head?)
      raised := false }

/-- Externally visible actions of one publishToDLQ call. -/
structure DlqPublishTrace where
  returnedCount : Nat
  dlqSendCalls : Nat
  fileWrite : FileWriteTrace
  deriving DecidableEq, Repr

/-- A trace with no external action, for the paths that skip the DLQ. -/
def DlqPublishTrace.none : DlqPublishTrace :=
  { returnedCount := 0
    dlqSendCalls := 0
    fileWrite := { fileWritten := Option.none, criticalLoss := Option.none, raised := false } }

/-- publishToDLQ (src/kafka/dlqPublisher.ts lines 26-59): returns 0 with no
side effect when the DLQ is disabled or the message list is empty; otherwise
sends all envelopes to the DLQ topic, and on send failure falls back to
writeDLQToFile and returns 0. -/
def publishToDLQ (cfg : DlqConfig) (env : PubEnv)
    (messages : List DLQMessage) : DlqPublishTrace :=
  if ¬cfg.enabled ∨ messages.isEmpty then
    DlqPublishTrace.none
  else if env.dlqSendOk then
    { returnedCount := messages.length
      dlqSendCalls := 1
      fileWrite := { fileWritten := Option.none, criticalLoss := Option.none, raised := false } }
  else
    { returnedCount := 0
      dlqSendCalls := 1
      fileWrite := writeDLQToFile cfg messages env.dlqErrMsg env.now env.fileWriteOk }

/-- The PublishBatchResult interface of src/kafka/publisher.ts. -/
structure PublishBatchResult where
  successful : Bool
  publishedCount : Nat
  dlqCount : Nat
  error : Option String
  deriving DecidableEq, Repr

/-- Externally visible actions and result of one publishBatch call. -/
structure PublishTrace where
  result : PublishBatchResult
  primarySendCalls : Nat
  dlqMessages : List DLQMessage
  dlq : DlqPublishTrace
  deriving DecidableEq, Repr

/-- publishBatch (src/kafka/publisher.ts lines 50-102): empty batches return
success immediately; otherwise one producer.send is attempted and, on
failure, the whole batch is wrapped into dead-letter envelopes sharing one
generated batchId and handed to publishToDLQ. -/
def publishBatch (cfg : DlqConfig) (env : PubEnv) (topic : String)
    (batch : List CsvRow) (csvUrl weatherType : Option String)
    (batchId : String) : PublishTrace :=
  if batch.isEmpty then
    { result := { successful := true, publishedCount := 0, dlqCount := 0, error := none }
      primarySendCalls := 0
      dlqMessages := []
      dlq := DlqPublishTrace.none }
  else if env.primarySendOk then
    { result := { successful := true, publishedCount := batch.length, dlqCount := 0, error := none }
      primarySendCalls := 1
      dlqMessages := []
      dlq := DlqPublishTrace.none }
  else
    let msgs := batch.map (fun record =>
      createDLQMessage cfg.includeStackTraces env.now record env.primaryErrMsg none
        { originalTopic := topic
          csvUrl := csvUrl
          weatherType := weatherType
          batchId := some batchId
          attemptNumber := some 1 })
    let d := publishToDLQ cfg env msgs
    { result := { successful := false, publishedCount := 0, dlqCount := d.returnedCount,
                  error := some env.primaryErrMsg }
      primarySendCalls := 1
      dlqMessages := msgs
      dlq := d }

/-- The four terminal outcomes of the pipeline invariant (spec section 3). -/
inductive TerminalOutcome where
  | deliveredPrimary
  | deliveredDLQ
  | persistedToFile
  | loggedAsLost
  deriving DecidableEq, Repr

/-- The terminal outcome the trace of one publishBatch call records for the
records of its batch, read off the externally visible actions:
a successful primary send delivers to the primary destination, a successful
DLQ send delivers to the dead-letter destination, a fallback file write
persists to file, and a critical loss log marks the records as lost.
When none of these happened the records received no terminal outcome. -/
def batchTerminalOutcome (t : PublishTrace) : Option TerminalOutcome :=
  if t.result.successful ∧ t.primarySendCalls = 1 then some .deliveredPrimary
  else if 0 < t.dlq.returnedCount then some .deliveredDLQ
  else if t.dlq.fileWrite.fileWritten.isSome then some .persistedToFile
  else if t.dlq.fileWrite.criticalLoss.isSome then some .loggedAsLost
  else none

/-- TIMING.MS_PER_MINUTE (src/shared/constants.ts). -/
def MS_PER_MINUTE : Nat := 60 * 1000

/-- isServerError (src/scheduler/scheduler.ts lines 137-142): 5xx band of
HTTP_STATUS_CODES. -/
def isServerError (statusCode : Nat) : Bool :=
  500 ≤ statusCode ∧ statusCode ≤ 599

/-- isClientError (src/scheduler/scheduler.ts lines 147-152): 4xx band of
HTTP_STATUS_CODES. -/
def isClientError (statusCode : Nat) : Bool :=
  400 ≤ statusCode ∧ statusCode ≤ 499

/-- calculateFallbackDelay (src/scheduler/scheduler.ts lines 160-166):
baseIntervalMinutes times 2 to the zero-based attemptNumber, converted to
milliseconds. -/
def calculateFallbackDelay (attemptNumber baseIntervalMinutes : Nat) : Nat :=
  baseIntervalMinutes * 2 ^ attemptNumber * MS_PER_MINUTE

/-- What one csvStreamToKafka invocation does from the point of view of the
scheduler: resolves, or throws an HttpError carrying a status code, or
throws a non-HTTP (transport) error. -/
inductive FetchOutcome where
  | ok
  | httpErr (statusCode : Nat)
  | netErr
  deriving DecidableEq, Repr

/-- The final log event of one source-type task, distinguishing the code
paths of processCsvWithFallback. -/
inductive TaskLogKind where
  | completed
  | maxRetriesReached
  | notFoundSkip
  | clientError
  | httpOther
  | nonHttpError
  deriving DecidableEq, Repr

/-- Externally visible behaviour of one source-type task: the boolean result
returned to runJob, the backoff delays awaited (in order, milliseconds), the
number of fetch attempts, and the final log event. -/
structure CsvTaskRun where
  success : Bool
  delays : List Nat
  attempts : Nat
  finalLog : TaskLogKind
  deriving DecidableEq, Repr

/-- processCsvWithFallback (src/scheduler/scheduler.ts lines 172-256), for
one source type: the oracle gives the outcome of the fetch with zero-based
attempt index k.  5xx responses below the attempt bound wait the exponential
delay and recurse with the attempt counter bumped; 404, other 4xx, other
HTTP statuses and transport errors return false without retrying. -/
def processCsvWithFallback (fetch : Nat → FetchOutcome)
    (maxAttempts baseIntervalMin : Nat) (currentAttempt : Nat) : CsvTaskRun :=
  match fetch currentAttempt with
  | .ok => { success := true, delays := [], attempts := 1, finalLog := .completed }
  | .netErr => { success := false, delays := [], attempts := 1, finalLog := .nonHttpError }
  | .httpErr statusCode =>
    if isServerError statusCode then
      if h : currentAttempt < maxAttempts then
        let d := calculateFallbackDelay currentAttempt baseIntervalMin
        let rest := processCsvWithFallback fetch maxAttempts baseIntervalMin (currentAttempt + 1)
        { success := rest.success
          delays := d :: rest.delays
          attempts := rest.attempts + 1
          finalLog := rest.finalLog }
      else
        { success := false, delays := [], attempts := 1, finalLog := .maxRetriesReached }
    else if statusCode = 404 then
      { success := false, delays := [], attempts := 1, finalLog := .notFoundSkip }
    else if isClientError statusCode then
      { success := false, delays := [], attempts := 1, finalLog := .clientError }
    else
      { success := false, delays := [], attempts := 1, finalLog := .httpOther }
termination_by maxAttempts - currentAttempt
decreasing_by omega

/-- The per-cycle summary runJob logs (src/scheduler/scheduler.ts
lines 289-295): counts of successful and unsuccessful source types. -/
structure JobSummary where
  successful : Nat
  failed : Nat
  deriving DecidableEq, Repr

/-- runJob (src/scheduler/scheduler.ts lines 258-296), with the fetch
behaviour of each configured source type given by an oracle: every type runs
processCsvWithFallback from attempt 0 and the summary counts results by the
boolean each task returned. -/
def runJob (fetches : List (Nat → FetchOutcome))
    (maxAttempts baseIntervalMin : Nat) : JobSummary × List CsvTaskRun :=
  let runs := fetches.map (fun f => processCsvWithFallback f maxAttempts baseIntervalMin 0)
  ({ successful := (runs.filter (fun r => r.success)).length
     failed := (runs.filter (fun r => ¬r.success)).length }, runs)

/-- The batching loop of the streaming csvStreamToKafka variant
(src/csv/csvStream.ts data handler): rows arrive one at a time and are
pushed onto the buffer; whenever the buffer reaches batchSize, its first
batchSize rows are spliced off and handed to publishBatch.  Returns the
batches emitted by the data events together with the final buffer. -/
def streamGo (batchSize : Nat) (buf : List α) : List α → List (List α) × List α
  | [] => ([], buf)
  | r :: rs =>
    let buf2 := buf ++ [r]
    if batchSize ≤ buf2.length then
      let p := streamGo batchSize (buf2.drop batchSize) rs
      (buf2.take batchSize :: p.1, p.2)
    else
      streamGo batchSize buf2 rs

/-- The full list of batches the streaming csvStreamToKafka variant hands to
publishBatch for a parsed row sequence (src/csv/csvStream.ts lines 54-133):
the full batches spliced off during the data events, then the remaining rows
flushed by the end handler when any are left. -/
def csvStreamBatches (batchSize : Nat) (rows : List α) : List (List α) :=
  let p := streamGo batchSize [] rows
  if p.2.isEmpty then p.1 else p.1 ++ [p.2]

/-- The batches the buffered csvStreamToKafka variant hands to publishBatch
(src/csv/csv-stream.ts lines 43-50): the whole parsed document as a single
batch when it is non-empty, nothing otherwise; no batch size is consulted. -/
def bufferedBatches (rows : List α) : List (List α) :=
  if rows.length > 0 then [rows] else []

/-- State of the module-level broker connection manager
(src/kafka/client.ts, confluent variant with reference counting):
the reference count, whether producerInstance is non-null, the
producerConnected flag, whether a connectPromise is in flight, and counters
of the underlying producer.connect and producer.disconnect calls. -/
structure ClientState where
  refCount : Nat
  producerExists : Bool
  producerConnected : Bool
  connectInFlight : Bool
  connectCalls : Nat
  disconnectCalls : Nat
  deriving DecidableEq, Repr

/-- The initial module state: no producer, nothing connected. -/
def initialClientState : ClientState :=
  { refCount := 0, producerExists := false, producerConnected := false
    connectInFlight := false, connectCalls := 0, disconnectCalls := 0 }

/-- Atomic events of the connection manager.  acquire is the synchronous
prefix of connectProducer (the bump of refCount, the guards, and the start
of the in-flight connect, which creates the producer and issues the
underlying connect call before suspending); connectDone is the resolution of
the in-flight connect promise; release is disconnectProducer. -/
inductive ClientEvent where
  | acquire
  | connectDone
  | release
  deriving DecidableEq, Repr

/-- One step of the connection manager (src/kafka/client.ts, connectProducer
lines 166-183 and disconnectProducer lines 198-207). -/
def clientStep (s : ClientState) : ClientEvent → ClientState
  | .acquire =>
    let s := { s with refCount := s.refCount + 1 }
    if s.producerConnected ∧ s.producerExists then s
    else if s.connectInFlight then s
    else
      { s with producerExists := true, connectInFlight := true
               connectCalls := s.connectCalls + 1 }
  | .connectDone =>
    if s.connectInFlight then
      { s with producerConnected := true, connectInFlight := false }
    else s
  | .release =>
    let s := { s with refCount := s.refCount - 1 }
    if 0 < s.refCount then s
    else if s.producerExists then
      { s with disconnectCalls := s.disconnectCalls + 1
               producerConnected := false, producerExists := false }
    else s

/-- Run a sequence of connection-manager events from a state. -/
def runClient (s : ClientState) (events : List ClientEvent) : ClientState :=
  events.foldl clientStep s

/-- Whitespace as the JS trim and Number conversions treat it. -/
def isJsWhitespace (c : Char) : Bool :=
  c = ' ' ∨ c = '\t' ∨ c = '\n' ∨ c = '\r'

/-- JS String.prototype.trim: strip whitespace from both ends. -/
def jsTrim (chars : List Char) : List Char :=
  ((chars.dropWhile isJsWhitespace).reverse.dropWhile isJsWhitespace).reverse

/-- Value of a digit string, as String.toNat and the JS Number conversion
read pure digit sequences. -/
def digitsToNat (chars : List Char) : Nat :=
  chars.foldl (fun n c => n * 10 + (c.toNat - 48)) 0

/-- The JS Number conversion restricted to how expandHHMMToISO consumes it:
surrounding whitespace is ignored, the empty string is 0, a pure digit
string is its value, and anything else is NaN (modelled as none; negative
and malformed inputs both lead expandHHMMToISO to the midnight fallback,
exactly as none does below). -/
def jsNumberNat (chars : List Char) : Option Nat :=
  let t := jsTrim chars
  if t.isEmpty then some 0
  else if t.all Char.isDigit then some (digitsToNat t)
  else none

/-- padStart of JS strings: left-pad with a character up to a length. -/
def padStart (chars : List Char) (n : Nat) (c : Char) : List Char :=
  List.replicate (n - chars.length) c ++ chars

/-- expandHHMMToISO (src/csv/utils.ts): expands an HHMM time to a full ISO
8601 timestamp on the given report date (passed here as its YYYY-MM-DD
string, the slice of date.toISOString the source takes). -/
def expandHHMMToISO (hhmm : String) (dateStr : String) : String :=
  let trimmed := jsTrim hhmm.data
  if trimmed.contains 'T' then String.mk trimmed
  else if trimmed.length < 3 then dateStr ++ "T00:00:00Z"
  else
    let padded := padStart trimmed 4 '0'
    let hours := padded.take 2
    let mins := (padded.drop 2).take 2
    match jsNumberNat hours, jsNumberNat mins with
    | some h, some m =>
      if h ≤ 23 ∧ m ≤ 59 then
        dateStr ++ "T" ++ String.mk hours ++ ":" ++ String.mk mins ++ ":00Z"
      else dateStr ++ "T00:00:00Z"
    | _, _ => dateStr ++ "T00:00:00Z"

/-- The per-row transformation of parseCsv in the buffered variant
(src/csv/csv-stream.ts lines 66-78): the row is spread unchanged and the
eventType tag is written. -/
def parseCsvRow (row : CsvRow) (eventType : String) : CsvRow :=
  row.setField "eventType" eventType

/-- The per-row transformation of parseCsv in the report-date variant
(src/csv/csvStream.ts with expandHHMMToISO, lines 71-91): when the row has a
non-empty Time field it is rewritten to the expanded ISO timestamp, then the
eventType tag is written.  (When Time is absent or empty the spread leaves
the row unchanged up to JSON serialization.) -/
def parseCsvRowDated (row : CsvRow) (eventType : String) (dateStr : String) : CsvRow :=
  let row2 :=
    match row.lookup "Time" with
    | some t => if t.isEmpty then row else row.setField "Time" (expandHHMMToISO t dateStr)
    | none => row
  row2.setField "eventType" eventType

/-! Concrete fixtures used by counterexamples and witnesses: two rows of the
hail report CSV the unit tests use, and the two dead-letter configurations. -/

/-- First row of the sample hail report used in csvStream.test.ts. -/
def sampleRow : CsvRow := [("Time", "1510"), ("Size", "125"), ("State", "TX")]

/-- Second row of the sample hail report used in csvStream.test.ts. -/
def sampleRow2 : CsvRow := [("Time", "1703"), ("Size", "100"), ("State", "TX")]

/-- A dead-letter configuration with the DLQ stage enabled. -/
def cfgDlqEnabled : DlqConfig :=
  { enabled := true, topic := "raw-weather-reports-dlq"
    includeStackTraces := false, fallbackDirectory := "dlq-fallback" }

/-- The same configuration with the DLQ stage disabled. -/
def cfgDlqDisabled : DlqConfig :=
  { cfgDlqEnabled with enabled := false }

/-- An environment in which the primary send, the DLQ send and the fallback
file write all fail. -/
def envAllFail : PubEnv :=
  { primarySendOk := false, primaryErrMsg := "broker unavailable"
    dlqSendOk := false, dlqErrMsg := "dlq broker unavailable"
    fileWriteOk := false, now := "2024-04-26T15:10:00.123Z" }

/-- An environment in which the primary send fails and the DLQ send
succeeds. -/
def envPrimaryFail : PubEnv :=
  { envAllFail with dlqSendOk := true, fileWriteOk := true }

/-- An environment in which the primary and DLQ sends fail but the fallback
file write succeeds. -/
def envFileOnly : PubEnv :=
  { envAllFail with fileWriteOk := true }

/-- Claim C10: publishBatch called with an empty batch returns
successful = true with publishedCount = 0 and dlqCount = 0, performs no
broker send at all, builds no dead-letter envelopes and takes no DLQ or
file action: an empty publish is a no-op success, not an error
(src/kafka/publisher.ts lines 56-59). -/
theorem publishBatch_empty_is_noop_success
    (cfg : DlqConfig) (env : PubEnv) (topic : String)
    (csvUrl weatherType : Option String) (batchId : String) :
    publishBatch cfg env topic [] csvUrl weatherType batchId =
      { result := { successful := true, publishedCount := 0, dlqCount := 0, error := none }
        primarySendCalls := 0
        dlqMessages := []
        dlq := DlqPublishTrace.none } := by
  rfl

/-- Claim C4: when the primary publish of a non-empty batch fails, the
dead-letter envelopes handed to the DLQ manager carry exactly the records of
the batch, in order and unmodified, every envelope shares the one generated
batchId, every attemptNumber is at least 1, and every originalTopic equals
the primary destination name. -/
theorem publishBatch_envelopes_preserve_batch
    (cfg : DlqConfig) (env : PubEnv) (topic : String) (batch : List CsvRow)
    (csvUrl weatherType : Option String) (batchId : String)
    (hne : batch ≠ []) (hfail : env.primarySendOk = false) :
    ((publishBatch cfg env topic batch csvUrl weatherType batchId).dlqMessages.map
        (fun m => m.originalMessage) = batch) ∧
    (∀ m ∈ (publishBatch cfg env topic batch csvUrl weatherType batchId).dlqMessages,
      m.metadata.batchId = some batchId ∧
      1 ≤ m.metadata.attemptNumber ∧
      m.metadata.originalTopic = topic) := by
  have hb : batch.isEmpty = false := by simpa [List.isEmpty_iff] using hne
  constructor
  · simp only [publishBatch, hb, hfail, Bool.false_eq_true, if_false, List.map_map]
    exact List.map_id' batch
  · intro m hm
    simp only [publishBatch, hb, hfail] at hm
    simp only [Bool.false_eq_true, if_false, List.mem_map] at hm
    obtain ⟨r, _, rfl⟩ := hm
    refine ⟨rfl, ?_, rfl⟩
    simp [createDLQMessage]

/-- Witness for claim C4 at a concrete failing batch of two records. -/
theorem publishBatch_envelopes_preserve_batch_witness :
    ((publishBatch cfgDlqEnabled envAllFail "raw-weather-reports"
        [sampleRow, sampleRow2] none none "batch-1").dlqMessages.map
        (fun m => m.originalMessage) = [sampleRow, sampleRow2]) ∧
    (∀ m ∈ (publishBatch cfgDlqEnabled envAllFail "raw-weather-reports"
        [sampleRow, sampleRow2] none none "batch-1").dlqMessages,
      m.metadata.batchId = some "batch-1" ∧
      1 ≤ m.metadata.attemptNumber ∧
      m.metadata.originalTopic = "raw-weather-reports") :=
  publishBatch_envelopes_preserve_batch cfgDlqEnabled envAllFail
    "raw-weather-reports" [sampleRow, sampleRow2] none none "batch-1"
    (by simp) rfl

/-- Claim C7: when the DLQ publish of a non-empty envelope list fails with
the DLQ stage enabled, exactly one file named
dlq-fallback-(sanitized ISO timestamp).json is written to the configured
directory, containing all envelopes plus fileMetadata with the timestamp,
the envelope count and the original DLQ error as reason; if the file write
itself also fails, the critical loss event with the lost count and the first
envelope as sample is logged instead, and in neither case is an exception
raised (src/kafka/dlqPublisher.ts lines 26-59 and 74-134). -/
theorem publishToDLQ_file_fallback
    (cfg : DlqConfig) (env : PubEnv) (messages : List DLQMessage)
    (hen : cfg.enabled = true) (hne : messages ≠ []) (hfail : env.dlqSendOk = false) :
    (env.fileWriteOk = true →
      (publishToDLQ cfg env messages).fileWrite.fileWritten =
        some (cfg.fallbackDirectory,
          "dlq-fallback-" ++ sanitizeTimestamp env.now ++ ".json",
          { failedMessages := messages
            fileMetadata :=
              { timestamp := env.now, count := messages.length, reason := env.dlqErrMsg } }) ∧
      (publishToDLQ cfg env messages).fileWrite.criticalLoss = none) ∧
    (env.fileWriteOk = false →
      (publishToDLQ cfg env messages).fileWrite.fileWritten = none ∧
      (publishToDLQ cfg env messages).fileWrite.criticalLoss =
        some (messages.length, messages.head?)) ∧
    (publishToDLQ cfg env messages).fileWrite.raised = false := by
  have hb : messages.isEmpty = false := by simpa [List.isEmpty_iff] using hne
  refine ⟨fun hfs => ?_, fun hfs => ?_, ?_⟩
  · simp [publishToDLQ, writeDLQToFile, dlqFallbackFilename, hen, hb, hfail, hfs]
  · simp [publishToDLQ, writeDLQToFile, hen, hb, hfail, hfs]
  · cases hfs : env.fileWriteOk <;>
      simp [publishToDLQ, writeDLQToFile, hen, hb, hfail, hfs]

/-- Witness for claim C7: a concrete failing DLQ publish of one envelope
with a failing file write, and the filename shape at the sample
timestamp. -/
theorem publishToDLQ_file_fallback_witness :
    ((envAllFail.fileWriteOk = true →
      (publishToDLQ cfgDlqEnabled envAllFail
        [⟨sampleRow, ⟨"2024-04-26T15:10:00.123Z", "raw-weather-reports", "kafka_publish",
          "broker unavailable", none, 1, some "batch-1", none, none⟩⟩]).fileWrite.fileWritten =
        some (cfgDlqEnabled.fallbackDirectory,
          "dlq-fallback-" ++ sanitizeTimestamp envAllFail.now ++ ".json",
          { failedMessages :=
              [⟨sampleRow, ⟨"2024-04-26T15:10:00.123Z", "raw-weather-reports", "kafka_publish",
                "broker unavailable", none, 1, some "batch-1", none, none⟩⟩]
            fileMetadata :=
              { timestamp := envAllFail.now, count := 1, reason := envAllFail.dlqErrMsg } }) ∧
      (publishToDLQ cfgDlqEnabled envAllFail
        [⟨sampleRow, ⟨"2024-04-26T15:10:00.123Z", "raw-weather-reports", "kafka_publish",
          "broker unavailable", none, 1, some "batch-1", none, none⟩⟩]).fileWrite.criticalLoss = none) ∧
    (envAllFail.fileWriteOk = false →
      (publishToDLQ cfgDlqEnabled envAllFail
        [⟨sampleRow, ⟨"2024-04-26T15:10:00.123Z", "raw-weather-reports", "kafka_publish",
          "broker unavailable", none, 1, some "batch-1", none, none⟩⟩]).fileWrite.fileWritten = none ∧
      (publishToDLQ cfgDlqEnabled envAllFail
        [⟨sampleRow, ⟨"2024-04-26T15:10:00.123Z", "raw-weather-reports", "kafka_publish",
          "broker unavailable", none, 1, some "batch-1", none, none⟩⟩]).fileWrite.criticalLoss =
        some (1, some ⟨sampleRow, ⟨"2024-04-26T15:10:00.123Z", "raw-weather-reports", "kafka_publish",
          "broker unavailable", none, 1, some "batch-1", none, none⟩⟩)) ∧
    (publishToDLQ cfgDlqEnabled envAllFail
      [⟨sampleRow, ⟨"2024-04-26T15:10:00.123Z", "raw-weather-reports", "kafka_publish",
        "broker unavailable", none, 1, some "batch-1", none, none⟩⟩]).fileWrite.raised = false) ∧
    sanitizeTimestamp "2024-04-26T15:10:00.123Z" = "2024-04-26T15-10-00-123Z" :=
  ⟨publishToDLQ_file_fallback cfgDlqEnabled envAllFail
      [⟨sampleRow, ⟨"2024-04-26T15:10:00.123Z", "raw-weather-reports", "kafka_publish",
        "broker unavailable", none, 1, some "batch-1", none, none⟩⟩]
      rfl (by simp) rfl,
    by decide⟩

/-- Counterexample to claim C3: with a one-record batch whose primary send
fails, publishBatch performs exactly one producer.send attempt, not the up
to 3 retried attempts the claim states; no retry and no backoff exist in
src/kafka/publisher.ts lines 50-102. -/
theorem publishBatch_no_retry_counterexample :
    (publishBatch cfgDlqEnabled envAllFail "raw-weather-reports"
      [sampleRow] none none "batch-1").primarySendCalls = 1 ∧
    ¬2 ≤ (publishBatch cfgDlqEnabled envAllFail "raw-weather-reports"
      [sampleRow] none none "batch-1").primarySendCalls := by
  constructor
  · rfl
  · intro h
    simp [publishBatch, envAllFail, cfgDlqEnabled] at h

/-- Claim C3 as amended: publishBatch makes exactly one send attempt per
non-empty batch; on failure it returns successful = false with
publishedCount = 0 and hands the entire unmodified batch to the dead-letter
manager, and no partial delivery is ever reported in any environment. -/
theorem publishBatch_single_attempt_all_or_nothing
    (cfg : DlqConfig) (env : PubEnv) (topic : String) (batch : List CsvRow)
    (csvUrl weatherType : Option String) (batchId : String)
    (hne : batch ≠ []) (hfail : env.primarySendOk = false) :
    (publishBatch cfg env topic batch csvUrl weatherType batchId).primarySendCalls = 1 ∧
    (publishBatch cfg env topic batch csvUrl weatherType batchId).result.successful = false ∧
    (publishBatch cfg env topic batch csvUrl weatherType batchId).result.publishedCount = 0 ∧
    ((publishBatch cfg env topic batch csvUrl weatherType batchId).dlqMessages.map
      (fun m => m.originalMessage) = batch) ∧
    (∀ env2 : PubEnv,
      (publishBatch cfg env2 topic batch csvUrl weatherType batchId).result.publishedCount = 0 ∨
      (publishBatch cfg env2 topic batch csvUrl weatherType batchId).result.publishedCount =
        batch.length) := by
  have hb : batch.isEmpty = false := by simpa [List.isEmpty_iff] using hne
  refine ⟨?_, ?_, ?_, ?_, ?_⟩
  · simp [publishBatch, hb, hfail]
  · simp [publishBatch, hb, hfail]
  · simp [publishBatch, hb, hfail]
  · simp only [publishBatch, hb, hfail, Bool.false_eq_true, if_false, List.map_map]
    exact List.map_id' batch
  · intro env2
    by_cases h2 : env2.primarySendOk = true
    · right; simp [publishBatch, hb, h2]
    · left
      simp only [Bool.not_eq_true] at h2
      simp [publishBatch, hb, h2]

/-- Witness for the amended claim C3 at a concrete failing batch. -/
theorem publishBatch_single_attempt_all_or_nothing_witness :
    (publishBatch cfgDlqEnabled envFileOnly "raw-weather-reports"
      [sampleRow, sampleRow2] none none "batch-1").primarySendCalls = 1 ∧
    (publishBatch cfgDlqEnabled envFileOnly "raw-weather-reports"
      [sampleRow, sampleRow2] none none "batch-1").result.successful = false ∧
    (publishBatch cfgDlqEnabled envFileOnly "raw-weather-reports"
      [sampleRow, sampleRow2] none none "batch-1").result.publishedCount = 0 ∧
    ((publishBatch cfgDlqEnabled envFileOnly "raw-weather-reports"
      [sampleRow, sampleRow2] none none "batch-1").dlqMessages.map
      (fun m => m.originalMessage) = [sampleRow, sampleRow2]) ∧
    (∀ env2 : PubEnv,
      (publishBatch cfgDlqEnabled env2 "raw-weather-reports"
        [sampleRow, sampleRow2] none none "batch-1").result.publishedCount = 0 ∨
      (publishBatch cfgDlqEnabled env2 "raw-weather-reports"
        [sampleRow, sampleRow2] none none "batch-1").result.publishedCount =
        ([sampleRow, sampleRow2] : List CsvRow).length) :=
  publishBatch_single_attempt_all_or_nothing cfgDlqEnabled envFileOnly
    "raw-weather-reports" [sampleRow, sampleRow2] none none "batch-1" (by simp) rfl

/-- Counterexample to claim C1: when the dead-letter stage is disabled by
configuration and the primary publish of a non-empty batch fails, no
terminal outcome at all is recorded for the records of the batch: they are
neither delivered, nor dead-lettered, nor persisted, nor logged through the
critical loss event, contradicting the exactly-one-outcome invariant. -/
theorem pipeline_outcome_counterexample :
    batchTerminalOutcome
      (publishBatch cfgDlqDisabled envAllFail "raw-weather-reports"
        [sampleRow] none none "batch-1") = none := by
  rfl

/-- Claim C1 as amended: when the dead-letter stage is enabled, every
non-empty batch that enters publishBatch has exactly one terminal outcome
recorded for its records, whatever the primary send, DLQ send and file
write results: delivered to the primary destination, delivered to the
dead-letter destination, persisted to a fallback file, or logged as an
irrecoverable loss; and in the last case no exception is raised (the trace
never marks an escaped exception), so processing continues. -/
theorem pipeline_exactly_one_terminal_outcome
    (cfg : DlqConfig) (env : PubEnv) (topic : String) (batch : List CsvRow)
    (csvUrl weatherType : Option String) (batchId : String)
    (hne : batch ≠ []) (hdlq : cfg.enabled = true) :
    (batchTerminalOutcome
      (publishBatch cfg env topic batch csvUrl weatherType batchId)).isSome = true ∧
    (publishBatch cfg env topic batch csvUrl weatherType batchId).dlq.fileWrite.raised
      = false := by
  have hb : batch.isEmpty = false := by simpa [List.isEmpty_iff] using hne
  have hmsgs : (batch.map (fun record =>
      createDLQMessage cfg.includeStackTraces env.now record env.primaryErrMsg none
        { originalTopic := topic, csvUrl := csvUrl, weatherType := weatherType
          batchId := some batchId, attemptNumber := some 1 })).isEmpty = false := by
    cases batch with
    | nil => exact absurd rfl hne
    | cons r t => rfl
  cases hps : env.primarySendOk
  · cases hds : env.dlqSendOk
    · cases hfw : env.fileWriteOk <;>
        simp [publishBatch, publishToDLQ, writeDLQToFile, batchTerminalOutcome,
          DlqPublishTrace.none, hb, hdlq, hps, hds, hfw, hmsgs]
    · have hlen : 0 < (batch.map (fun record =>
          createDLQMessage cfg.includeStackTraces env.now record env.primaryErrMsg none
            { originalTopic := topic, csvUrl := csvUrl, weatherType := weatherType
              batchId := some batchId, attemptNumber := some 1 })).length := by
        simpa [List.length_pos] using hne
      simp only [List.length_map] at hlen
      simp [publishBatch, publishToDLQ, batchTerminalOutcome,
        DlqPublishTrace.none, hb, hdlq, hps, hds, hmsgs, hlen]
  · simp [publishBatch, batchTerminalOutcome, DlqPublishTrace.none, hb, hps]

/-- Witness for the amended claim C1 at a concrete batch in the environment
where every delivery channel fails and the records end as a logged loss. -/
theorem pipeline_exactly_one_terminal_outcome_witness :
    (batchTerminalOutcome
      (publishBatch cfgDlqEnabled envAllFail "raw-weather-reports"
        [sampleRow, sampleRow2] none none "batch-1")).isSome = true ∧
    (publishBatch cfgDlqEnabled envAllFail "raw-weather-reports"
      [sampleRow, sampleRow2] none none "batch-1").dlq.fileWrite.raised = false :=
  pipeline_exactly_one_terminal_outcome cfgDlqEnabled envAllFail
    "raw-weather-reports" [sampleRow, sampleRow2] none none "batch-1" (by simp) rfl

/-- Whether a fetch outcome is a thrown HttpError with a 5xx status, the
condition the scheduler retries on. -/
def isServerErrorOutcome : FetchOutcome → Bool
  | .httpErr statusCode => isServerError statusCode
  | _ => false

/-- Behaviour of processCsvWithFallback on a run of 5xx responses followed
by a success: starting at attempt cur with 5xx outcomes up to (but not
including) attempt maxAttempts and a success at attempt maxAttempts, the
task succeeds, waits the exponential delays of the attempts cur to
maxAttempts - 1, and makes maxAttempts - cur + 1 fetch attempts. -/
theorem processCsvWithFallback_run_of_5xx (fetch : Nat → FetchOutcome)
    (maxAttempts baseIntervalMin : Nat) :
    ∀ cur, cur ≤ maxAttempts →
      (∀ k, cur ≤ k → k < maxAttempts → isServerErrorOutcome (fetch k) = true) →
      fetch maxAttempts = .ok →
      processCsvWithFallback fetch maxAttempts baseIntervalMin cur =
        { success := true
          delays := (List.range' cur (maxAttempts - cur)).map
            (fun k => calculateFallbackDelay k baseIntervalMin)
          attempts := maxAttempts - cur + 1
          finalLog := .completed } := by
  suffices h : ∀ d cur, maxAttempts - cur = d → cur ≤ maxAttempts →
      (∀ k, cur ≤ k → k < maxAttempts → isServerErrorOutcome (fetch k) = true) →
      fetch maxAttempts = .ok →
      processCsvWithFallback fetch maxAttempts baseIntervalMin cur =
        { success := true
          delays := (List.range' cur (maxAttempts - cur)).map
            (fun k => calculateFallbackDelay k baseIntervalMin)
          attempts := maxAttempts - cur + 1
          finalLog := .completed } by
    intro cur hcur h5 hok
    exact h (maxAttempts - cur) cur rfl hcur h5 hok
  intro d
  induction d with
  | zero =>
    intro cur hd hcur h5 hok
    have hc : cur = maxAttempts := by omega
    subst hc
    unfold processCsvWithFallback
    rw [hok, hd]
    simp
  | succ d ih =>
    intro cur hd hcur h5 hok
    have hlt : cur < maxAttempts := by omega
    have h5c := h5 cur le_rfl hlt
    unfold processCsvWithFallback
    cases hf : fetch cur with
    | ok => rw [hf] at h5c; simp [isServerErrorOutcome] at h5c
    | netErr => rw [hf] at h5c; simp [isServerErrorOutcome] at h5c
    | httpErr s =>
      rw [hf] at h5c
      simp only [isServerErrorOutcome] at h5c
      have ihc := ih (cur + 1) (by omega) (by omega)
        (fun k hk1 hk2 => h5 k (by omega) hk2) hok
      simp only [h5c, if_true, hlt, dif_pos, ihc]
      have hrange : List.range' cur (maxAttempts - cur) =
          cur :: List.range' (cur + 1) (maxAttempts - (cur + 1)) := by
        have : maxAttempts - cur = (maxAttempts - (cur + 1)) + 1 := by omega
        rw [this, List.range'_succ]
      rw [hrange]
      simp only [List.map_cons, CsvTaskRun.mk.injEq]
      refine ⟨trivial, trivial, by omega, trivial⟩

/-- Claim C5: when every fetch attempt with zero-based index below
maxAttempts throws a 5xx HttpError and the fetch at index maxAttempts
succeeds, the source-type task succeeds after maxAttempts + 1 total fetch
attempts and the backoff delay inserted before the retry with zero-based
attempt index k is baseInterval times 2 to the k (in milliseconds, the base
interval being configured in minutes), as computed by
calculateFallbackDelay (src/scheduler/scheduler.ts lines 160-166 and
172-256). -/
theorem scheduler_5xx_retry_backoff (fetch : Nat → FetchOutcome)
    (maxAttempts baseIntervalMin : Nat)
    (h5 : ∀ k, k < maxAttempts → isServerErrorOutcome (fetch k) = true)
    (hok : fetch maxAttempts = .ok) :
    (processCsvWithFallback fetch maxAttempts baseIntervalMin 0).success = true ∧
    (processCsvWithFallback fetch maxAttempts baseIntervalMin 0).attempts =
      maxAttempts + 1 ∧
    (processCsvWithFallback fetch maxAttempts baseIntervalMin 0).delays =
      (List.range maxAttempts).map
        (fun k => baseIntervalMin * 2 ^ k * MS_PER_MINUTE) := by
  have h := processCsvWithFallback_run_of_5xx fetch maxAttempts baseIntervalMin 0
    (Nat.zero_le maxAttempts) (fun k _ hk => h5 k hk) hok
  rw [h]
  refine ⟨rfl, rfl, ?_⟩
  simp [List.range_eq_range', calculateFallbackDelay]

/-- Witness for claim C5: three 500 responses then a 200, with the default
maxFallbackAttempts 3 and fallbackIntervalMin 30 of the scheduler tests:
4 total attempts and delays of 30, 60 and 120 minutes. -/
theorem scheduler_5xx_retry_backoff_witness :
    (processCsvWithFallback
      (fun k => if k < 3 then .httpErr 500 else .ok) 3 30 0).success = true ∧
    (processCsvWithFallback
      (fun k => if k < 3 then .httpErr 500 else .ok) 3 30 0).attempts = 3 + 1 ∧
    (processCsvWithFallback
      (fun k => if k < 3 then .httpErr 500 else .ok) 3 30 0).delays =
      (List.range 3).map (fun k => 30 * 2 ^ k * MS_PER_MINUTE) :=
  scheduler_5xx_retry_backoff (fun k => if k < 3 then .httpErr 500 else .ok) 3 30
    (by decide) (by decide)

/-- The 404 branch of processCsvWithFallback: one attempt, no delay, skip
log, boolean result false. -/
theorem processCsvWithFallback_404 (fetch : Nat → FetchOutcome)
    (maxAttempts baseIntervalMin : Nat) (h404 : fetch 0 = .httpErr 404) :
    processCsvWithFallback fetch maxAttempts baseIntervalMin 0 =
      { success := false, delays := [], attempts := 1, finalLog := .notFoundSkip } := by
  unfold processCsvWithFallback
  rw [h404]
  norm_num [isServerError]

/-- Counterexample to claim C6: for a source type whose fetch returns 404,
the recorded outcome is a failure, not a distinct Skipped outcome: the task
returns false to runJob and the job summary counts the type among failed
(failed = 1, not 0), exactly as the repository test suite expects
(scheduler.test.ts, handles mixed success and failures). -/
theorem notFound_counted_as_failed_counterexample :
    (runJob [fun _ => FetchOutcome.httpErr 404] 3 30).1 =
      { successful := 0, failed := 1 } ∧
    (runJob [fun _ => FetchOutcome.httpErr 404] 3 30).1.failed ≠ 0 := by
  have h := processCsvWithFallback_404 (fun _ => FetchOutcome.httpErr 404) 3 30 rfl
  constructor
  · simp [runJob, h]
  · simp [runJob, h]

/-- Claim C6 as amended: for a fetch that returns 404 on its first attempt,
exactly one fetch attempt occurs, with no retry and no backoff delay; the
code logs the not-found skip warning, but the task returns false and the
run summary counts the source type among the failed ones: there is no
distinct Skipped outcome. -/
theorem notFound_single_attempt_no_retry (fetch : Nat → FetchOutcome)
    (maxAttempts baseIntervalMin : Nat)
    (h404 : fetch 0 = .httpErr 404) :
    processCsvWithFallback fetch maxAttempts baseIntervalMin 0 =
      { success := false, delays := [], attempts := 1, finalLog := .notFoundSkip } ∧
    (runJob [fetch] maxAttempts baseIntervalMin).1 =
      { successful := 0, failed := 1 } := by
  have hrun := processCsvWithFallback_404 fetch maxAttempts baseIntervalMin h404
  exact ⟨hrun, by simp [runJob, hrun]⟩

/-- Witness for the amended claim C6 at the constant 404 oracle. -/
theorem notFound_single_attempt_no_retry_witness :
    processCsvWithFallback (fun _ => FetchOutcome.httpErr 404) 3 30 0 =
      { success := false, delays := [], attempts := 1, finalLog := .notFoundSkip } ∧
    (runJob [fun _ => FetchOutcome.httpErr 404] 3 30).1 =
      { successful := 0, failed := 1 } :=
  notFound_single_attempt_no_retry (fun _ => FetchOutcome.httpErr 404) 3 30 rfl

/-- Running a concatenated event sequence runs the two parts in order. -/
theorem runClient_append (s : ClientState) (l1 l2 : List ClientEvent) :
    runClient s (l1 ++ l2) = runClient (runClient s l1) l2 := by
  simp [runClient, List.foldl_append]

/-- While a connect is in flight, further acquisitions only bump the
reference count: they neither create a producer nor issue a second
underlying connect call. -/
theorem runClient_acquires_during_inflight (n : Nat) :
    ∀ (m c d : Nat),
      runClient { refCount := m, producerExists := true, producerConnected := false
                  connectInFlight := true, connectCalls := c, disconnectCalls := d }
        (List.replicate n .acquire) =
      { refCount := m + n, producerExists := true, producerConnected := false
        connectInFlight := true, connectCalls := c, disconnectCalls := d } := by
  induction n with
  | zero => intro m c d; rfl
  | succ k ih =>
    intro m c d
    rw [List.replicate_succ]
    show runClient (clientStep _ .acquire) (List.replicate k .acquire) = _
    have hstep : clientStep
        { refCount := m, producerExists := true, producerConnected := false
          connectInFlight := true, connectCalls := c, disconnectCalls := d } .acquire =
        { refCount := m + 1, producerExists := true, producerConnected := false
          connectInFlight := true, connectCalls := c, disconnectCalls := d } := by
      simp [clientStep]
    rw [hstep, ih]
    congr 1
    omega

/-- After the connect promise resolves, releases above one reference only
decrement the count: the underlying disconnect does not fire. -/
theorem runClient_releases_above_zero (k : Nat) :
    ∀ (m c d : Nat), k < m →
      runClient { refCount := m, producerExists := true, producerConnected := true
                  connectInFlight := false, connectCalls := c, disconnectCalls := d }
        (List.replicate k .release) =
      { refCount := m - k, producerExists := true, producerConnected := true
        connectInFlight := false, connectCalls := c, disconnectCalls := d } := by
  induction k with
  | zero => intro m c d _; rfl
  | succ k ih =>
    intro m c d hk
    rw [List.replicate_succ]
    show runClient (clientStep _ .release) (List.replicate k .release) = _
    have hstep : clientStep
        { refCount := m, producerExists := true, producerConnected := true
          connectInFlight := false, connectCalls := c, disconnectCalls := d } .release =
        { refCount := m - 1, producerExists := true, producerConnected := true
          connectInFlight := false, connectCalls := c, disconnectCalls := d } := by
      have hpos : 0 < m - 1 := by omega
      simp [clientStep, hpos]
    rw [hstep, ih (m - 1) c d (by omega)]
    congr 1
    omega

/-- Claim C8: for the reference-counted broker connection manager, N
acquisitions arriving before the connection exists issue exactly one
underlying connect call (concurrent acquisitions coalesce on the single
in-flight connect promise); after the connect resolves, the first N - 1
releases leave the underlying disconnect count at zero and the Nth release
makes it fire, and in general any release that fires the underlying
disconnect leaves the reference count at zero
(src/kafka/client.ts, connectProducer and disconnectProducer). -/
theorem connection_manager_single_connect_last_disconnect (N : Nat) (hN : 1 ≤ N) :
    (runClient initialClientState (List.replicate N .acquire)).connectCalls = 1 ∧
    (∀ k, k < N →
      (runClient initialClientState
        (List.replicate N .acquire ++ [.connectDone] ++
          List.replicate k .release)).disconnectCalls = 0) ∧
    (runClient initialClientState
      (List.replicate N .acquire ++ [.connectDone] ++
        List.replicate N .release)).disconnectCalls = 1 ∧
    (∀ s : ClientState, (clientStep s .release).disconnectCalls ≠ s.disconnectCalls →
      (clientStep s .release).refCount = 0) := by
  have hfirst : clientStep initialClientState .acquire =
      { refCount := 1, producerExists := true, producerConnected := false
        connectInFlight := true, connectCalls := 1, disconnectCalls := 0 } := by
    simp [clientStep, initialClientState]
  have hacq : runClient initialClientState (List.replicate N .acquire) =
      { refCount := N, producerExists := true, producerConnected := false
        connectInFlight := true, connectCalls := 1, disconnectCalls := 0 } := by
    obtain ⟨M, rfl⟩ : ∃ M, N = M + 1 := ⟨N - 1, by omega⟩
    rw [List.replicate_succ]
    show runClient (clientStep _ .acquire) (List.replicate M .acquire) = _
    rw [hfirst, runClient_acquires_during_inflight M 1 1 0]
    congr 1
    omega
  have hdone : runClient initialClientState
      (List.replicate N .acquire ++ [.connectDone]) =
      { refCount := N, producerExists := true, producerConnected := true
        connectInFlight := false, connectCalls := 1, disconnectCalls := 0 } := by
    rw [runClient, List.foldl_append]
    show clientStep (runClient initialClientState (List.replicate N .acquire)) .connectDone = _
    rw [hacq]
    simp [clientStep]
  refine ⟨by rw [hacq], fun k hk => ?_, ?_, fun s hs => ?_⟩
  · rw [runClient_append, hdone, runClient_releases_above_zero k N 1 0 hk]
  · obtain ⟨M, rfl⟩ : ∃ M, N = M + 1 := ⟨N - 1, by omega⟩
    have hsplit : List.replicate (M + 1) ClientEvent.release =
        List.replicate M ClientEvent.release ++ [ClientEvent.release] :=
      List.replicate_succ' M ClientEvent.release
    rw [hsplit, ← List.append_assoc, runClient_append, runClient_append, hdone,
      runClient_releases_above_zero M (M + 1) 1 0 (by omega)]
    have hone : M + 1 - M = 1 := by omega
    rw [hone]
    simp [runClient, clientStep]
  · by_cases h1 : 0 < s.refCount - 1
    · exact absurd (by simp [clientStep, h1]) hs
    · by_cases h2 : s.producerExists = true
      · simp only [clientStep, h2, if_true, h1, if_false]
        omega
      · exact absurd (by simp [clientStep, h1, h2]) hs

/-- Witness for claim C8 at N = 3: one underlying connect for three
acquisitions, no disconnect after two releases, disconnect after the
third. -/
theorem connection_manager_witness :
    (runClient initialClientState (List.replicate 3 .acquire)).connectCalls = 1 ∧
    (runClient initialClientState
      (List.replicate 3 .acquire ++ [.connectDone] ++
        List.replicate 2 .release)).disconnectCalls = 0 ∧
    (runClient initialClientState
      (List.replicate 3 .acquire ++ [.connectDone] ++
        List.replicate 3 .release)).disconnectCalls = 1 :=
  have h := connection_manager_single_connect_last_disconnect 3 (by decide)
  ⟨h.1, h.2.1 2 (by decide), h.2.2.1⟩

/-- Every batch spliced off by the data events has exactly the batch size,
the batches followed by the final buffer reproduce the row stream, and the
final buffer stays below the batch size. -/
theorem streamGo_spec {α : Type} (batchSize : Nat) (hB : 0 < batchSize) :
    ∀ (rows buf : List α), buf.length < batchSize →
      (∀ b ∈ (streamGo batchSize buf rows).1, b.length = batchSize) ∧
      (streamGo batchSize buf rows).1.flatten ++ (streamGo batchSize buf rows).2 =
        buf ++ rows ∧
      (streamGo batchSize buf rows).2.length < batchSize := by
  intro rows
  induction rows with
  | nil =>
    intro buf hbuf
    exact ⟨fun b hb => absurd hb (List.not_mem_nil b), by simp [streamGo], hbuf⟩
  | cons r rs ih =>
    intro buf hbuf
    by_cases hle : batchSize ≤ (buf ++ [r]).length
    · have hlen : (buf ++ [r]).length = batchSize := by
        simp only [List.length_append, List.length_singleton]
        simp only [List.length_append, List.length_singleton] at hle
        omega
      have htake : (buf ++ [r]).take batchSize = buf ++ [r] :=
        List.take_of_length_le (le_of_eq hlen)
      have hdrop : (buf ++ [r]).drop batchSize = [] :=
        List.drop_eq_nil_of_le (le_of_eq hlen)
      obtain ⟨ih1, ih2, ih3⟩ := ih [] (by simpa using hB)
      have hgo : streamGo batchSize buf (r :: rs) =
          ((buf ++ [r]).take batchSize :: (streamGo batchSize [] rs).1,
            (streamGo batchSize [] rs).2) := by
        simp only [streamGo, if_pos hle, hdrop]
      rw [hgo]
      refine ⟨?_, ?_, ih3⟩
      · intro b hb
        rcases List.mem_cons.mp hb with h | h
        · rw [h, htake, hlen]
        · exact ih1 b h
      · simp only [List.flatten_cons, htake]
        rw [List.append_assoc, ih2]
        simp
    · have hlt : (buf ++ [r]).length < batchSize := by omega
      obtain ⟨ih1, ih2, ih3⟩ := ih (buf ++ [r]) hlt
      have hgo : streamGo batchSize buf (r :: rs) =
          streamGo batchSize (buf ++ [r]) rs := by
        simp only [streamGo, if_neg hle]
      rw [hgo]
      exact ⟨ih1, by rw [ih2]; simp, ih3⟩

/-- The sum of the lengths of lists that all have length B. -/
theorem sum_map_length_const {α : Type} (B : Nat) :
    ∀ (l : List (List α)), (∀ b ∈ l, b.length = B) →
      (l.map List.length).sum = B * l.length := by
  intro l
  induction l with
  | nil => intro _; simp
  | cons b t ih =>
    intro h
    have hb := h b (List.mem_cons_self b t)
    have ht := ih (fun x hx => h x (List.mem_cons_of_mem b hx))
    simp only [List.map_cons, List.sum_cons, List.length_cons, ht, hb]
    ring

/-- Counterexample to claim C2: the buffered csvStreamToKafka variant of
src/csv/csv-stream.ts ignores the configured batch size and hands the
publisher a single batch holding the whole document: with N = 2 rows and
batch size B = 1 it emits 1 batch instead of the 2 batches the claim
requires, while the streaming variant emits 2. -/
theorem csvStream_buffered_single_batch_counterexample :
    bufferedBatches [sampleRow, sampleRow2] = [[sampleRow, sampleRow2]] ∧
    (bufferedBatches [sampleRow, sampleRow2]).length ≠
      (([sampleRow, sampleRow2] : List CsvRow).length + 1 - 1) / 1 ∧
    (csvStreamBatches 1 [sampleRow, sampleRow2]).length = 2 := by
  refine ⟨rfl, ?_, rfl⟩
  intro h
  simp [bufferedBatches] at h

/-- Claim C2 as amended: for the streaming csvStreamToKafka variant and any
batch size B at least 1, the publisher receives exactly
ceil(N/B) = (N + B - 1) / B batches whose concatenation is the parsed row
sequence (so the sizes sum to N), every batch except possibly the last has
size exactly B, the last batch has size N mod B when N mod B is nonzero,
and an empty document yields zero batches; the buffered variant instead
hands the publisher the whole non-empty document as one batch, independent
of the batch size. -/
theorem csvStream_batching (batchSize : Nat) (rows : List CsvRow)
    (hB : 1 ≤ batchSize) :
    (csvStreamBatches batchSize rows).length =
      (rows.length + batchSize - 1) / batchSize ∧
    (csvStreamBatches batchSize rows).flatten = rows ∧
    ((csvStreamBatches batchSize rows).map List.length).sum = rows.length ∧
    (∀ b ∈ (csvStreamBatches batchSize rows).dropLast, b.length = batchSize) ∧
    (rows.length % batchSize ≠ 0 →
      ((csvStreamBatches batchSize rows).getLast?).map List.length =
        some (rows.length % batchSize)) ∧
    csvStreamBatches batchSize ([] : List CsvRow) = [] ∧
    (rows ≠ [] → bufferedBatches rows = [rows]) := by
  obtain ⟨hall, hjoin, hfin⟩ := streamGo_spec batchSize hB rows [] (by simpa using hB)
  have hsum : ((streamGo batchSize [] rows).1.map List.length).sum =
      batchSize * (streamGo batchSize [] rows).1.length :=
    sum_map_length_const batchSize (streamGo batchSize [] rows).1 hall
  have hflat : (streamGo batchSize [] rows).1.flatten.length =
      batchSize * (streamGo batchSize [] rows).1.length := by
    rw [List.length_flatten, hsum]
  have hN : batchSize * (streamGo batchSize [] rows).1.length +
      (streamGo batchSize [] rows).2.length = rows.length := by
    have hlen := congrArg List.length hjoin
    simp only [List.length_append, List.nil_append] at hlen
    rw [hflat] at hlen
    omega
  have hempty : csvStreamBatches batchSize ([] : List CsvRow) = [] := rfl
  by_cases hfe : (streamGo batchSize [] rows).2.isEmpty
  · have hf0 : (streamGo batchSize [] rows).2 = [] := by
      simpa [List.isEmpty_iff] using hfe
    have hcsb : csvStreamBatches batchSize rows = (streamGo batchSize [] rows).1 := by
      simp [csvStreamBatches, hfe]
    have hrows : rows.length = batchSize * (streamGo batchSize [] rows).1.length := by
      rw [hf0] at hN
      simp only [List.length_nil] at hN
      omega
    refine ⟨?_, ?_, ?_, ?_, ?_, hempty, ?_⟩
    · rw [hcsb, hrows]
      have h1 : batchSize * (streamGo batchSize [] rows).1.length + batchSize - 1 =
          batchSize * (streamGo batchSize [] rows).1.length + (batchSize - 1) := by
        omega
      rw [h1, Nat.mul_add_div (by omega), Nat.div_eq_of_lt (by omega)]
      simp
    · rw [hcsb]
      rw [hf0] at hjoin
      simpa using hjoin
    · rw [hcsb, hsum]
      omega
    · intro b hb
      rw [hcsb] at hb
      exact hall b ((List.dropLast_sublist _).subset hb)
    · intro hmod
      rw [hrows, Nat.mul_mod_right] at hmod
      exact absurd rfl hmod
    · intro hne
      simp [bufferedBatches, List.length_pos.mpr hne]
  · have hf1 : (streamGo batchSize [] rows).2 ≠ [] := by
      simpa [List.isEmpty_iff] using hfe
    have hfpos : 0 < (streamGo batchSize [] rows).2.length := List.length_pos.mpr hf1
    have hcsb : csvStreamBatches batchSize rows =
        (streamGo batchSize [] rows).1 ++ [(streamGo batchSize [] rows).2] := by
      simp [csvStreamBatches, hfe]
    have hrows : rows.length = batchSize * (streamGo batchSize [] rows).1.length +
        (streamGo batchSize [] rows).2.length := by omega
    refine ⟨?_, ?_, ?_, ?_, ?_, hempty, ?_⟩
    · rw [hcsb]
      have h1 : rows.length + batchSize - 1 =
          batchSize * (streamGo batchSize [] rows).1.length +
            ((streamGo batchSize [] rows).2.length + batchSize - 1) := by
        omega
      rw [h1, Nat.mul_add_div (by omega)]
      have h2 : ((streamGo batchSize [] rows).2.length + batchSize - 1) / batchSize = 1 := by
        apply Nat.div_eq_of_lt_le
        · omega
        · have : (1 + 1) * batchSize = batchSize + batchSize := by ring
          omega
      rw [h2]
      simp
    · rw [hcsb]
      simp only [List.flatten_append, List.flatten_cons, List.flatten_nil, List.append_nil]
      simpa using hjoin
    · rw [hcsb]
      simp only [List.map_append, List.map_cons, List.map_nil, List.sum_append,
        List.sum_cons, List.sum_nil]
      omega
    · intro b hb
      rw [hcsb, List.dropLast_concat] at hb
      exact hall b hb
    · intro _
      rw [hcsb, List.getLast?_concat]
      have : rows.length % batchSize = (streamGo batchSize [] rows).2.length := by
        rw [hrows, Nat.mul_add_mod, Nat.mod_eq_of_lt hfin]
      rw [this]
      rfl
    · intro hne
      simp [bufferedBatches, List.length_pos.mpr hne]

/-- Witness for the amended claim C2 at the 5-row, batch-size-2 example of
the spec: batch sizes 2, 2, 1. -/
theorem csvStream_batching_witness :
    (csvStreamBatches 2 [sampleRow, sampleRow2, sampleRow, sampleRow2, sampleRow]).length =
      (([sampleRow, sampleRow2, sampleRow, sampleRow2, sampleRow] : List CsvRow).length + 2 - 1) / 2 ∧
    (csvStreamBatches 2 [sampleRow, sampleRow2, sampleRow, sampleRow2, sampleRow]).flatten =
      [sampleRow, sampleRow2, sampleRow, sampleRow2, sampleRow] ∧
    ((csvStreamBatches 2 [sampleRow, sampleRow2, sampleRow, sampleRow2, sampleRow]).map
      List.length).sum =
      ([sampleRow, sampleRow2, sampleRow, sampleRow2, sampleRow] : List CsvRow).length ∧
    (∀ b ∈ (csvStreamBatches 2
        [sampleRow, sampleRow2, sampleRow, sampleRow2, sampleRow]).dropLast,
      b.length = 2) ∧
    (([sampleRow, sampleRow2, sampleRow, sampleRow2, sampleRow] : List CsvRow).length % 2 ≠ 0 →
      ((csvStreamBatches 2
        [sampleRow, sampleRow2, sampleRow, sampleRow2, sampleRow]).getLast?).map List.length =
        some (([sampleRow, sampleRow2, sampleRow, sampleRow2, sampleRow] : List CsvRow).length % 2)) ∧
    csvStreamBatches 2 ([] : List CsvRow) = [] ∧
    (([sampleRow, sampleRow2, sampleRow, sampleRow2, sampleRow] : List CsvRow) ≠ [] →
      bufferedBatches [sampleRow, sampleRow2, sampleRow, sampleRow2, sampleRow] =
        [[sampleRow, sampleRow2, sampleRow, sampleRow2, sampleRow]]) :=
  csvStream_batching 2 [sampleRow, sampleRow2, sampleRow, sampleRow2, sampleRow] (by decide)

/-- Overwriting an existing key leaves lookups of other keys unchanged. -/
theorem lookup_map_overwrite_ne (row : CsvRow) (k v key : String) (h : key ≠ k) :
    CsvRow.lookup (row.map (fun p => if p.1 = k then (p.1, v) else p)) key =
      CsvRow.lookup row key := by
  induction row with
  | nil => rfl
  | cons p t ih =>
    by_cases hp : p.1 = k
    · have hk : ¬(k = key) := fun he => h he.symm
      simp [CsvRow.lookup, hp, hk, ih]
    · simp only [List.map_cons, if_neg hp]
      by_cases hq : p.1 = key <;> simp [CsvRow.lookup, hq, ih]

/-- Appending a new key leaves lookups of other keys unchanged. -/
theorem lookup_append_single_ne (row : CsvRow) (k v key : String) (h : key ≠ k) :
    CsvRow.lookup (row ++ [(k, v)]) key = CsvRow.lookup row key := by
  induction row with
  | nil =>
    have : k ≠ key := fun he => h he.symm
    simp [CsvRow.lookup, this]
  | cons p t ih =>
    by_cases hp : p.1 = key <;> simp [CsvRow.lookup, hp, ih]

/-- The spread update leaves every other field lookup unchanged. -/
theorem CsvRow.lookup_setField_ne (row : CsvRow) (k v key : String) (h : key ≠ k) :
    (row.setField k v).lookup key = row.lookup key := by
  unfold CsvRow.setField
  by_cases hany : row.any (fun p => p.1 = k) = true
  · rw [if_pos hany]
    exact lookup_map_overwrite_ne row k v key h
  · rw [if_neg hany]
    exact lookup_append_single_ne row k v key h

/-- Overwriting a present key makes its lookup return the new value. -/
theorem lookup_map_overwrite_self (row : CsvRow) (k v : String)
    (hany : row.any (fun p => p.1 = k) = true) :
    CsvRow.lookup (row.map (fun p => if p.1 = k then (p.1, v) else p)) k = some v := by
  induction row with
  | nil => simp at hany
  | cons p t ih =>
    by_cases hp : p.1 = k
    · simp [CsvRow.lookup, hp]
    · have ht : t.any (fun p => p.1 = k) = true := by
        simpa [List.any_cons, hp] using hany
      simp [CsvRow.lookup, hp, ih ht]

/-- Appending an absent key makes its lookup return the new value. -/
theorem lookup_append_single_self (row : CsvRow) (k v : String)
    (hnone : row.any (fun p => p.1 = k) = false) :
    CsvRow.lookup (row ++ [(k, v)]) k = some v := by
  induction row with
  | nil => simp [CsvRow.lookup]
  | cons p t ih =>
    have hp : p.1 ≠ k := by
      intro he
      simp [List.any_cons, he] at hnone
    have ht : t.any (fun p => p.1 = k) = false := by
      simpa [List.any_cons, hp] using hnone
    simp [CsvRow.lookup, hp, ih ht]

/-- The spread update makes the written field look up to the new value. -/
theorem CsvRow.lookup_setField_self (row : CsvRow) (k v : String) :
    (row.setField k v).lookup k = some v := by
  unfold CsvRow.setField
  cases hany : row.any (fun p => p.1 = k) with
  | true =>
    rw [if_pos rfl]
    exact lookup_map_overwrite_self row k v hany
  | false =>
    rw [if_neg (by simp)]
    exact lookup_append_single_self row k v hany

/-- Counterexample to claim C9: the report-date parseCsv variant rewrites
the Time field: on the first sample hail row with report date 2024-04-26,
the published record carries Time 2024-04-26T15:10:00Z while the parsed row
carried Time 1510, so an existing field value is modified by the pipeline. -/
theorem parseCsv_time_field_modified_counterexample :
    CsvRow.lookup (parseCsvRowDated [("Time", "1510"), ("Size", "125")] "hail"
      "2024-04-26") "Time" = some "2024-04-26T15:10:00Z" ∧
    CsvRow.lookup [("Time", "1510"), ("Size", "125")] "Time" = some "1510" ∧
    (some "2024-04-26T15:10:00Z" : Option String) ≠ some "1510" := by
  refine ⟨by decide, by decide, by decide⟩

/-- Claim C9 as amended: the basic parseCsv variant passes every row through
unchanged with exactly one appended eventType field; the report-date variant
preserves every field other than Time and eventType and sets eventType, but
it rewrites a present non-empty Time value to the expanded ISO timestamp of
the report date. -/
theorem parseCsv_row_transformation (row : CsvRow) (eventType dateStr : String)
    (hno : row.any (fun p => p.1 = "eventType") = false) :
    parseCsvRow row eventType = row ++ [("eventType", eventType)] ∧
    (parseCsvRow row eventType).lookup "eventType" = some eventType ∧
    (∀ key, key ≠ "eventType" → key ≠ "Time" →
      (parseCsvRowDated row eventType dateStr).lookup key = row.lookup key) ∧
    (parseCsvRowDated row eventType dateStr).lookup "eventType" = some eventType ∧
    (∀ t, row.lookup "Time" = some t → t.isEmpty = false →
      (parseCsvRowDated row eventType dateStr).lookup "Time" =
        some (expandHHMMToISO t dateStr)) := by
  refine ⟨?_, ?_, ?_, ?_, ?_⟩
  · unfold parseCsvRow CsvRow.setField
    rw [if_neg (by simp [hno])]
  · exact CsvRow.lookup_setField_self row "eventType" eventType
  · intro key hkey htime
    unfold parseCsvRowDated
    cases hrow : row.lookup "Time" with
    | none => exact CsvRow.lookup_setField_ne row "eventType" eventType key hkey
    | some t =>
      show ((if t.isEmpty = true then row
          else row.setField "Time" (expandHHMMToISO t dateStr)).setField
          "eventType" eventType).lookup key = row.lookup key
      cases hte : t.isEmpty with
      | true =>
        rw [if_pos rfl]
        exact CsvRow.lookup_setField_ne row "eventType" eventType key hkey
      | false =>
        rw [if_neg (by simp)]
        rw [CsvRow.lookup_setField_ne _ "eventType" eventType key hkey,
          CsvRow.lookup_setField_ne row "Time" _ key htime]
  · unfold parseCsvRowDated
    exact CsvRow.lookup_setField_self _ "eventType" eventType
  · intro t ht hte
    unfold parseCsvRowDated
    rw [ht]
    show ((if t.isEmpty = true then row
        else row.setField "Time" (expandHHMMToISO t dateStr)).setField
        "eventType" eventType).lookup "Time" = some (expandHHMMToISO t dateStr)
    rw [if_neg (by simp [hte])]
    rw [CsvRow.lookup_setField_ne _ "eventType" eventType "Time" (by decide)]
    exact CsvRow.lookup_setField_self row "Time" (expandHHMMToISO t dateStr)

/-- Witness for the amended claim C9 at the first sample hail row. -/
theorem parseCsv_row_transformation_witness :
    parseCsvRow sampleRow "hail" = sampleRow ++ [("eventType", "hail")] ∧
    (parseCsvRow sampleRow "hail").lookup "eventType" = some "hail" ∧
    (∀ key, key ≠ "eventType" → key ≠ "Time" →
      (parseCsvRowDated sampleRow "hail" "2024-04-26").lookup key =
        sampleRow.lookup key) ∧
    (parseCsvRowDated sampleRow "hail" "2024-04-26").lookup "eventType" =
      some "hail" ∧
    (∀ t, sampleRow.lookup "Time" = some t → t.isEmpty = false →
      (parseCsvRowDated sampleRow "hail" "2024-04-26").lookup "Time" =
        some (expandHHMMToISO t "2024-04-26")) :=
  parseCsv_row_transformation sampleRow "hail" "2024-04-26" (by decide)

end Storm
